import Mathlib

/-!
Verification development for the dyth/autoencoders repository.

The repository contains four training scripts:
  - src/autoencoders/mnist_old/feedforward.py  (feedforward MNIST autoencoder)
  - src/convolutional_cifar.py                 (plain convolutional CIFAR autoencoder)
  - src/resnet_cifar.py                        (residual CIFAR autoencoder)
  - src/conditional_autoencoder.py             (class-conditional residual CIFAR autoencoder)

The embedding below models, per script, the architecture composition code and the
train/test loop orchestration.  The external deep-learning library primitives
(convolution kernels, batch normalization statistics, the ELU/tanh activations,
optimizer updates) are represented as abstract functions carried as parameters,
exactly as the spec designates them external collaborators; all composition logic,
label routing, file naming, loss accumulation and loop control is embedded from
the source line by line.

Two levels are used:
  - a shape semantics (`Shape3`, `conv2dShape`, ...) computing the output shape of
    each layer from the layer hyperparameters written in the source, used for the
    shape round-trip properties;
  - a value semantics over batches of rational- or real-valued images, used for
    the label-threading, residual-skip, loss and loop properties.
-/

namespace Autoencoders

/-! ## Shape semantics

A 2d feature tensor shape is (channels, height, width).  Layer shape functions
return `none` when the external layer would reject the input (channel mismatch,
or spatial size too small for the kernel); the repository itself performs no
runtime shape check, so these guards model the external layer semantics only.
-/

/-- Shape of a 2d feature map: channels, height, width. -/
structure Shape3 where
  c : ℕ
  h : ℕ
  w : ℕ
deriving DecidableEq, Repr

/-- Output spatial size of Conv2d with kernel `k`, stride `s`, padding `p`. -/
def convOutDim (n k s p : ℕ) : ℕ := (n + 2 * p - k) / s + 1

/-- Output spatial size of ConvTranspose2d with kernel `k`, stride `s`,
padding `p`, output padding `op`. -/
def convTOutDim (n k s p op : ℕ) : ℕ := (n - 1) * s + k + op - 2 * p

/-- Shape action of `torch.nn.Conv2d(cin, cout, k, s, padding=p)`. -/
def conv2dShape (cin cout k s p : ℕ) (sh : Shape3) : Option Shape3 :=
  if sh.c = cin ∧ k ≤ sh.h + 2 * p ∧ k ≤ sh.w + 2 * p then
    some ⟨cout, convOutDim sh.h k s p, convOutDim sh.w k s p⟩
  else none

/-- Shape action of `torch.nn.ConvTranspose2d(cin, cout, k, s, output_padding=op)`. -/
def convT2dShape (cin cout k s op : ℕ) (sh : Shape3) : Option Shape3 :=
  if sh.c = cin ∧ 1 ≤ sh.h ∧ 1 ≤ sh.w then
    some ⟨cout, convTOutDim sh.h k s 0 op, convTOutDim sh.w k s 0 op⟩
  else none

/-- Shape action of `torch.nn.BatchNorm2d(f)` (also of the conditional variant):
channel count must equal the declared feature count, shape is preserved. -/
def bn2dShape (f : ℕ) (sh : Shape3) : Option Shape3 :=
  if sh.c = f then some sh else none

/-- Shape action of the additive skip connection `x + inner(x)`: the two operand
shapes must agree. -/
def addShape (a b : Shape3) : Option Shape3 :=
  if a = b then some a else none

/-- Sequential composition of layer shape actions, in source order. -/
def seqShape {α : Type} (layers : List (α → Option α)) (s : α) : Option α :=
  layers.foldl (fun acc f => acc.bind f) (some s)

/-! ### resnet_cifar.py shape pipelines -/

/-- Shape action of the residual branch of `resnet_cifar.BasicBlock`:
Conv2d(f,f,3,1,padding=1), ReLU, BatchNorm2d(f), Conv2d(f,f,3,1,padding=1),
ReLU, BatchNorm2d(f).  Activations preserve shape. -/
def basicBlockBranchShape (f : ℕ) : Shape3 → Option Shape3 :=
  seqShape [conv2dShape f f 3 1 1, bn2dShape f, conv2dShape f f 3 1 1, bn2dShape f]

/-- Shape action of `resnet_cifar.BasicBlock.forward`: `x + residual(x)`. -/
def basicBlockShape (f : ℕ) (sh : Shape3) : Option Shape3 :=
  (basicBlockBranchShape f sh).bind (addShape sh)

/-- Shape action of the inner block of `resnet_cifar.BiggerBlock`:
BasicBlock(f), ReLU, BatchNorm2d(f), BasicBlock(f), ReLU, BatchNorm2d(f). -/
def biggerBlockBranchShape (f : ℕ) : Shape3 → Option Shape3 :=
  seqShape [basicBlockShape f, bn2dShape f, basicBlockShape f, bn2dShape f]

/-- Shape action of `resnet_cifar.BiggerBlock.forward`: `x + block(x)`. -/
def biggerBlockShape (f : ℕ) (sh : Shape3) : Option Shape3 :=
  (biggerBlockBranchShape f sh).bind (addShape sh)

/-- Shape action of `resnet_cifar.ELU_BatchNorm2d(f)`: ELU then BatchNorm2d(f). -/
def eluBNShape (f : ℕ) : Shape3 → Option Shape3 := bn2dShape f

/-- Shape pipeline of `resnet_cifar.ResidualEncoder`, in source order. -/
def resnetEncoderShape : Shape3 → Option Shape3 :=
  seqShape
    [conv2dShape 3 16 3 1 1, biggerBlockShape 16, eluBNShape 16,
     conv2dShape 16 32 3 2 0, biggerBlockShape 32, eluBNShape 32,
     conv2dShape 32 64 3 2 0, biggerBlockShape 64, eluBNShape 64,
     conv2dShape 64 128 3 2 0, biggerBlockShape 128, eluBNShape 128,
     conv2dShape 128 256 3 2 0]

/-- Shape pipeline of `resnet_cifar.ResidualDecoder`, in source order. -/
def resnetDecoderShape : Shape3 → Option Shape3 :=
  seqShape
    [bn2dShape 256, convT2dShape 256 128 3 2 0,
     eluBNShape 128, biggerBlockShape 128, convT2dShape 128 64 3 2 0,
     eluBNShape 64, biggerBlockShape 64, convT2dShape 64 32 3 2 0,
     eluBNShape 32, biggerBlockShape 32, convT2dShape 32 16 3 2 1,
     eluBNShape 16, biggerBlockShape 16, conv2dShape 16 3 3 1 1]

/-! ### convolutional_cifar.py shape pipelines -/

/-- Shape pipeline of `convolutional_cifar.Encoder`: four stride-2 convolutions. -/
def convCifarEncoderShape : Shape3 → Option Shape3 :=
  seqShape
    [conv2dShape 3 8 3 2 0, conv2dShape 8 16 3 2 0,
     conv2dShape 16 32 3 2 0, conv2dShape 32 64 3 2 0]

/-- Shape pipeline of `convolutional_cifar.Decoder`: four stride-2 transposed
convolutions, the last with output_padding=1. -/
def convCifarDecoderShape : Shape3 → Option Shape3 :=
  seqShape
    [convT2dShape 64 32 3 2 0, convT2dShape 32 16 3 2 0,
     convT2dShape 16 8 3 2 0, convT2dShape 8 3 3 2 1]

/-! ### conditional_autoencoder.py shape pipelines

The conditional `BasicBlock` has the residual branch
Conv2d(f,f,3,1,padding=1), CBN(f), ReLU, Conv2d(f,f,3,1,padding=1), CBN(f),
then the additive skip; `ELU_BatchNorm2d` is ELU then CBN(f).  Conditional
batch normalization preserves shape and requires channels = f, like plain
BatchNorm2d.  In `Autoencoder.__init__` the last assignment of `filters` wins:
`[64, 128, 256, 512, 1024]`.
-/

/-- Shape action of the residual branch of `conditional_autoencoder.BasicBlock`. -/
def condBasicBlockBranchShape (f : ℕ) : Shape3 → Option Shape3 :=
  seqShape [conv2dShape f f 3 1 1, bn2dShape f, conv2dShape f f 3 1 1, bn2dShape f]

/-- Shape action of `conditional_autoencoder.BasicBlock`: `x + branch(x)`. -/
def condBasicBlockShape (f : ℕ) (sh : Shape3) : Option Shape3 :=
  (condBasicBlockBranchShape f sh).bind (addShape sh)

/-- Shape pipeline of `conditional_autoencoder.ResidualEncoder(filters)`. -/
def condEncoderShape (f0 f1 f2 f3 f4 : ℕ) : Shape3 → Option Shape3 :=
  seqShape
    [conv2dShape 3 f0 3 1 1,
     condBasicBlockShape f0, bn2dShape f0, conv2dShape f0 f1 3 2 0,
     condBasicBlockShape f1, bn2dShape f1, conv2dShape f1 f2 3 2 0,
     condBasicBlockShape f2, bn2dShape f2, conv2dShape f2 f3 3 2 0,
     condBasicBlockShape f3, bn2dShape f3, conv2dShape f3 f4 3 2 0]

/-- Shape pipeline of `conditional_autoencoder.ResidualDecoder(filters)`. -/
def condDecoderShape (f0 f1 f2 f3 f4 : ℕ) : Shape3 → Option Shape3 :=
  seqShape
    [convT2dShape f4 f3 3 2 0, bn2dShape f3, condBasicBlockShape f3,
     convT2dShape f3 f2 3 2 0, bn2dShape f2, condBasicBlockShape f2,
     convT2dShape f2 f1 3 2 0, bn2dShape f1, condBasicBlockShape f1,
     convT2dShape f1 f0 3 2 1, bn2dShape f0, condBasicBlockShape f0,
     conv2dShape f0 3 3 1 1]

/-! ## Value semantics over rational images

An image is a total map from (channel, row, column) to a rational value; a batch
is a list of images, and a label batch is a list of class indices.  Learned
library layers (convolutions, the statistics part of batch normalization) and
the fixed library activations ELU and tanh are abstract functions; ReLU is
`max x 0`.  The composition of these pieces is embedded from the source.
-/

/-- A 2d feature map: channel, row, column to value. -/
def Img : Type := ℕ → ℕ → ℕ → ℚ

instance : Inhabited Img := ⟨fun _ _ _ => 0⟩

/-- A batch of feature maps, one per example. -/
def Batch : Type := List Img

/-- A batch of integer class labels, one per example. -/
def Labels : Type := List ℕ

/-- `F.relu` applied to one value. -/
def reluQ (q : ℚ) : ℚ := max q 0

/-- Apply a scalar function pointwise to one image. -/
def imgMap (f : ℚ → ℚ) (i : Img) : Img := fun c h w => f (i c h w)

/-- Apply a scalar function pointwise to every image of a batch. -/
def batchMap (f : ℚ → ℚ) (x : Batch) : Batch := x.map (imgMap f)

/-- Pointwise sum of two images. -/
def imgAdd (a b : Img) : Img := fun c h w => a c h w + b c h w

/-- Pointwise sum of two batches, used for the residual skip `x + out`. -/
def batchAdd (x out : Batch) : Batch := List.zipWith imgAdd x out

namespace Conditional

/-- Parameters of `conditional_autoencoder.ConditionalBatchNorm2d`: the feature
count, the class count of the embedding table, the affine-free normalization
step `self.bn = BatchNorm2d(features, affine=False)` as an abstract batch
function, and the embedding table `self.embed` mapping a class index and a
column index below `2 * features` to a weight. -/
structure ConditionalBatchNorm2d where
  features : ℕ
  classes : ℕ
  bn : Batch → Batch
  embed : ℕ → ℕ → ℚ

/-- The two lines of `ConditionalBatchNorm2d.__init__` that overwrite the
embedding data: columns below `features` (the per-class scales gamma) are drawn
from the sampler `u`, whose values `uniform_(0, 1)` keeps in [0, 1]; the
remaining columns (the per-class shifts beta) are zeroed. -/
def ConditionalBatchNorm2d.init (features classes : ℕ) (bn : Batch → Batch)
    (u : ℕ → ℕ → ℚ) : ConditionalBatchNorm2d :=
  { features := features, classes := classes, bn := bn,
    embed := fun cls j => if j < features then u cls j else 0 }

/-- `ConditionalBatchNorm2d.forward(x, y)`: normalize the whole batch with the
affine-free `bn`, then scale and shift example `b` channelwise by
`embed[y[b]][c]` and `embed[y[b]][features + c]` (the two halves produced by
`chunk(2, 1)`). -/
def ConditionalBatchNorm2d.forward (p : ConditionalBatchNorm2d) (x : Batch)
    (y : Labels) : Batch :=
  let out := p.bn x
  List.zipWith
    (fun (img : Img) (yi : ℕ) => fun c h w =>
      p.embed yi c * img c h w + p.embed yi (p.features + c))
    out y

/-- Parameters of `conditional_autoencoder.BasicBlock`: two abstract
convolutions and two conditional normalization layers. -/
structure BasicBlock where
  conv1 : Img → Img
  bn1 : ConditionalBatchNorm2d
  conv2 : Img → Img
  bn2 : ConditionalBatchNorm2d

/-- `BasicBlock.conditional_forward(x, y)`: conv1, bn1(., y), relu, conv2,
bn2(., y), then the skip `x + out`. -/
def BasicBlock.conditional_forward (p : BasicBlock) (x : Batch) (y : Labels) : Batch :=
  let out := x.map p.conv1
  let out := p.bn1.forward out y
  let out := batchMap reluQ out
  let out := out.map p.conv2
  let out := p.bn2.forward out y
  batchAdd x out

/-- `BasicBlock.forward(x)`: the label defaults to `torch.zeros(batch_size)`. -/
def BasicBlock.forward (p : BasicBlock) (x : Batch) : Batch :=
  p.conditional_forward x (List.replicate x.length 0)

/-- Parameters of `conditional_autoencoder.ELU_BatchNorm2d`: one conditional
normalization layer. -/
structure ELU_BatchNorm2d where
  bn : ConditionalBatchNorm2d

/-- `ELU_BatchNorm2d.conditional_forward(x, y)`: `F.elu` then `bn(., y)`.
The external ELU activation is the abstract scalar function `elu`. -/
def ELU_BatchNorm2d.conditional_forward (elu : ℚ → ℚ) (p : ELU_BatchNorm2d)
    (x : Batch) (y : Labels) : Batch :=
  p.bn.forward (batchMap elu x) y

/-- `ELU_BatchNorm2d.forward(x)`: the label defaults to zeros. -/
def ELU_BatchNorm2d.forward (elu : ℚ → ℚ) (p : ELU_BatchNorm2d) (x : Batch) : Batch :=
  p.conditional_forward elu x (List.replicate x.length 0)

/-- Parameters of `conditional_autoencoder.ResidualEncoder`, field per layer in
source order. -/
structure ResidualEncoder where
  conv5 : Img → Img
  block4 : BasicBlock
  eb4 : ELU_BatchNorm2d
  conv4 : Img → Img
  block3 : BasicBlock
  eb3 : ELU_BatchNorm2d
  conv3 : Img → Img
  block2 : BasicBlock
  eb2 : ELU_BatchNorm2d
  conv2 : Img → Img
  block1 : BasicBlock
  eb1 : ELU_BatchNorm2d
  conv1 : Img → Img

/-- `ResidualEncoder.conditional_forward(x, y)`, line by line from the source;
`self.activate` is the abstract ELU applied pointwise. -/
def ResidualEncoder.conditional_forward (elu : ℚ → ℚ) (p : ResidualEncoder)
    (x : Batch) (y : Labels) : Batch :=
  let x := x.map p.conv5
  let x := batchMap elu x
  let x := p.block4.conditional_forward x y
  let x := p.eb4.conditional_forward elu x y
  let x := x.map p.conv4
  let x := batchMap elu x
  let x := p.block3.conditional_forward x y
  let x := p.eb3.conditional_forward elu x y
  let x := x.map p.conv3
  let x := batchMap elu x
  let x := p.block2.conditional_forward x y
  let x := p.eb2.conditional_forward elu x y
  let x := x.map p.conv2
  let x := batchMap elu x
  let x := p.block1.conditional_forward x y
  let x := p.eb1.conditional_forward elu x y
  x.map p.conv1

/-- `ResidualEncoder.forward(x)`: the label defaults to zeros. -/
def ResidualEncoder.forward (elu : ℚ → ℚ) (p : ResidualEncoder) (x : Batch) : Batch :=
  p.conditional_forward elu x (List.replicate x.length 0)

/-- Parameters of `conditional_autoencoder.ResidualDecoder`, field per layer in
source order; `conv1` .. `conv4` stand for the transposed convolutions. -/
structure ResidualDecoder where
  conv1 : Img → Img
  eb1 : ELU_BatchNorm2d
  block1 : BasicBlock
  conv2 : Img → Img
  eb2 : ELU_BatchNorm2d
  block2 : BasicBlock
  conv3 : Img → Img
  eb3 : ELU_BatchNorm2d
  block3 : BasicBlock
  conv4 : Img → Img
  eb4 : ELU_BatchNorm2d
  block4 : BasicBlock
  conv5 : Img → Img

/-- `ResidualDecoder.conditional_forward(x, y)`, line by line from the source;
`self.out = torch.nn.Tanh()` is the abstract scalar function `tanhAct`. -/
def ResidualDecoder.conditional_forward (elu tanhAct : ℚ → ℚ) (p : ResidualDecoder)
    (x : Batch) (y : Labels) : Batch :=
  let x := x.map p.conv1
  let x := p.eb1.conditional_forward elu x y
  let x := p.block1.conditional_forward x y
  let x := batchMap elu x
  let x := x.map p.conv2
  let x := p.eb2.conditional_forward elu x y
  let x := p.block2.conditional_forward x y
  let x := batchMap elu x
  let x := x.map p.conv3
  let x := p.eb3.conditional_forward elu x y
  let x := p.block3.conditional_forward x y
  let x := batchMap elu x
  let x := x.map p.conv4
  let x := p.eb4.conditional_forward elu x y
  let x := p.block4.conditional_forward x y
  let x := batchMap elu x
  let x := x.map p.conv5
  batchMap tanhAct x

/-- `ResidualDecoder.forward(x)`: the label defaults to zeros. -/
def ResidualDecoder.forward (elu tanhAct : ℚ → ℚ) (p : ResidualDecoder) (x : Batch) : Batch :=
  p.conditional_forward elu tanhAct x (List.replicate x.length 0)

/-- Parameters of `conditional_autoencoder.Autoencoder`. -/
structure Autoencoder where
  encoder : ResidualEncoder
  decoder : ResidualDecoder

/-- `Autoencoder.conditional_forward(x, y)` exactly as written in the source:
`x = self.encoder(x)` (the call `self.encoder.conditional_forward(x, y)` is
commented out, so the encoder runs its unconditional `forward`), then
`x = self.decoder.conditional_forward(x, y)`. -/
def Autoencoder.conditional_forward (elu tanhAct : ℚ → ℚ) (a : Autoencoder)
    (x : Batch) (y : Labels) : Batch :=
  let x := a.encoder.forward elu x
  a.decoder.conditional_forward elu tanhAct x y

/-- `Autoencoder.forward(x)`: the label defaults to zeros. -/
def Autoencoder.forward (elu tanhAct : ℚ → ℚ) (a : Autoencoder) (x : Batch) : Batch :=
  a.conditional_forward elu tanhAct x (List.replicate x.length 0)

/-- Modelled from the words of the spec, for the refinement comparison of claim
C1 only: the variant of `Autoencoder.conditional_forward` that threads the
supplied label through EVERY normalization layer, the encoder included. -/
def Autoencoder.conditional_forward_fullthread (elu tanhAct : ℚ → ℚ)
    (a : Autoencoder) (x : Batch) (y : Labels) : Batch :=
  let x := a.encoder.conditional_forward elu x y
  a.decoder.conditional_forward elu tanhAct x y

/-! ### Concrete instantiation used to separate the two readings of C1

The standalone convolutions and the normalization statistics are the identity,
the first convolution inside every basic block has all-zero kernels (so the
residual branch is a label-dependent constant), ELU and tanh are instantiated
with the identity (legitimate instantiations of the abstract external
primitives; on the nonnegative values reached below the true ELU is also the
identity), and the embedding table gives class 0 the affine pair
(gamma, beta) = (1, 0) and every other class (1, 1), so a conditional
normalization layer shifts by 1 exactly when its label is nonzero. -/

/-- Embedding table separating class 0 from the other classes. -/
def embedSep (features : ℕ) : ℕ → ℕ → ℚ :=
  fun cls j => if j < features then 1 else if cls = 0 then 0 else 1

/-- A concrete conditional normalization layer with identity statistics. -/
def cbnSep : ConditionalBatchNorm2d :=
  { features := 1, classes := 10, bn := fun x => x, embed := embedSep 1 }

/-- A concrete conditional basic block: the first convolution has all-zero
kernels, the second is the identity. -/
def blockSep : BasicBlock :=
  { conv1 := fun _ => (fun _ _ _ => 0), bn1 := cbnSep, conv2 := fun i => i, bn2 := cbnSep }

/-- A concrete conditional ELU-normalization layer. -/
def ebSep : ELU_BatchNorm2d := { bn := cbnSep }

/-- A concrete conditional residual encoder built from the pieces above. -/
def encoderSep : ResidualEncoder :=
  { conv5 := fun i => i, block4 := blockSep, eb4 := ebSep, conv4 := fun i => i,
    block3 := blockSep, eb3 := ebSep, conv3 := fun i => i,
    block2 := blockSep, eb2 := ebSep, conv2 := fun i => i,
    block1 := blockSep, eb1 := ebSep, conv1 := fun i => i }

/-- A concrete conditional residual decoder built from the pieces above. -/
def decoderSep : ResidualDecoder :=
  { conv1 := fun i => i, eb1 := ebSep, block1 := blockSep, conv2 := fun i => i,
    eb2 := ebSep, block2 := blockSep, conv3 := fun i => i,
    eb3 := ebSep, block3 := blockSep, conv4 := fun i => i,
    eb4 := ebSep, block4 := blockSep, conv5 := fun i => i }

/-- A concrete conditional autoencoder. -/
def autoencoderSep : Autoencoder := { encoder := encoderSep, decoder := decoderSep }

/-- The all-ones single-image batch used as the concrete input. -/
def onesBatch : Batch := [fun _ _ _ => (1 : ℚ)]

/-- The identity scalar map, used to instantiate the abstract ELU and tanh
activations in the concrete separation above. -/
def idQ : ℚ → ℚ := fun q => q

end Conditional

namespace Resnet

/-- Parameters of `resnet_cifar.BasicBlock`: the two convolutions of
`self.residual` as abstract image maps and the two batch normalizations as
abstract batch maps. -/
structure BasicBlock where
  conv1 : Img → Img
  bn1 : Batch → Batch
  conv2 : Img → Img
  bn2 : Batch → Batch

/-- The `self.residual` branch: Conv2d, ReLU, BatchNorm2d, Conv2d, ReLU,
BatchNorm2d, in source order. -/
def BasicBlock.residual (p : BasicBlock) (x : Batch) : Batch :=
  let out := x.map p.conv1
  let out := batchMap reluQ out
  let out := p.bn1 out
  let out := out.map p.conv2
  let out := batchMap reluQ out
  p.bn2 out

/-- `BasicBlock.forward`: `return x + self.residual(x)`. -/
def BasicBlock.forward (p : BasicBlock) (x : Batch) : Batch :=
  batchAdd x (p.residual x)

/-- Parameters of `resnet_cifar.ELU_BatchNorm2d`: the batch normalization of
`self.actnorm`. -/
structure ELU_BatchNorm2d where
  bn : Batch → Batch

/-- `ELU_BatchNorm2d.forward`: ELU then BatchNorm2d. -/
def ELU_BatchNorm2d.forward (elu : ℚ → ℚ) (p : ELU_BatchNorm2d) (x : Batch) : Batch :=
  p.bn (batchMap elu x)

/-- Parameters of `resnet_cifar.BiggerBlock`: `self.block` is BasicBlock, ReLU,
BatchNorm2d, BasicBlock, ReLU, BatchNorm2d. -/
structure BiggerBlock where
  block1 : BasicBlock
  bnA : Batch → Batch
  block2 : BasicBlock
  bnB : Batch → Batch

/-- The `self.block` branch of `BiggerBlock`, in source order. -/
def BiggerBlock.block (p : BiggerBlock) (x : Batch) : Batch :=
  let out := p.block1.forward x
  let out := batchMap reluQ out
  let out := p.bnA out
  let out := p.block2.forward out
  let out := batchMap reluQ out
  p.bnB out

/-- `BiggerBlock.forward`: `return x + self.block(x)`. -/
def BiggerBlock.forward (p : BiggerBlock) (x : Batch) : Batch :=
  batchAdd x (p.block x)

/-- Parameters of `resnet_cifar.ResidualEncoder`, field per layer of
`self.encoder` in source order (the interleaved `self.activate` ELUs carry no
parameters). -/
structure ResidualEncoder where
  convA : Img → Img
  big1 : BiggerBlock
  eb1 : ELU_BatchNorm2d
  convB : Img → Img
  big2 : BiggerBlock
  eb2 : ELU_BatchNorm2d
  convC : Img → Img
  big3 : BiggerBlock
  eb3 : ELU_BatchNorm2d
  convD : Img → Img
  big4 : BiggerBlock
  eb4 : ELU_BatchNorm2d
  convE : Img → Img

/-- `ResidualEncoder.forward`: the `self.encoder` Sequential in source order. -/
def ResidualEncoder.forward (elu : ℚ → ℚ) (p : ResidualEncoder) (x : Batch) : Batch :=
  let x := x.map p.convA
  let x := batchMap elu x
  let x := p.big1.forward x
  let x := p.eb1.forward elu x
  let x := x.map p.convB
  let x := batchMap elu x
  let x := p.big2.forward x
  let x := p.eb2.forward elu x
  let x := x.map p.convC
  let x := batchMap elu x
  let x := p.big3.forward x
  let x := p.eb3.forward elu x
  let x := x.map p.convD
  let x := batchMap elu x
  let x := p.big4.forward x
  let x := p.eb4.forward elu x
  x.map p.convE

/-- Parameters of `resnet_cifar.ResidualDecoder`, field per layer of
`self.decoder` in source order; `convA` .. `convD` stand for the transposed
convolutions and `convE` for the final Conv2d. -/
structure ResidualDecoder where
  bn0 : Batch → Batch
  convA : Img → Img
  eb1 : ELU_BatchNorm2d
  big1 : BiggerBlock
  convB : Img → Img
  eb2 : ELU_BatchNorm2d
  big2 : BiggerBlock
  convC : Img → Img
  eb3 : ELU_BatchNorm2d
  big3 : BiggerBlock
  convD : Img → Img
  eb4 : ELU_BatchNorm2d
  big4 : BiggerBlock
  convE : Img → Img

/-- `ResidualDecoder.forward`: the `self.decoder` Sequential in source order,
ending in the abstract tanh. -/
def ResidualDecoder.forward (elu tanhAct : ℚ → ℚ) (p : ResidualDecoder) (x : Batch) : Batch :=
  let x := p.bn0 x
  let x := x.map p.convA
  let x := p.eb1.forward elu x
  let x := p.big1.forward x
  let x := batchMap elu x
  let x := x.map p.convB
  let x := p.eb2.forward elu x
  let x := p.big2.forward x
  let x := batchMap elu x
  let x := x.map p.convC
  let x := p.eb3.forward elu x
  let x := p.big3.forward x
  let x := batchMap elu x
  let x := x.map p.convD
  let x := p.eb4.forward elu x
  let x := p.big4.forward x
  let x := batchMap elu x
  let x := x.map p.convE
  batchMap tanhAct x

/-- Parameters of `resnet_cifar.Autoencoder`. -/
structure Autoencoder where
  encoder : ResidualEncoder
  decoder : ResidualDecoder

/-- `Autoencoder.__init__(self, bottleneck)`: the body runs
`self.encoder = ResidualEncoder()` and `self.decoder = ResidualDecoder()`,
taking no argument; `enc` and `dec` stand for the weights the two constructors
freshly draw from the global generator state.  The `bottleneck` parameter is
accepted by the signature. -/
def Autoencoder.build (bottleneck : ℕ) (enc : ResidualEncoder) (dec : ResidualDecoder) :
    Autoencoder :=
  { encoder := enc, decoder := dec }

/-- `Autoencoder.forward`: encoder then decoder. -/
def Autoencoder.forward (elu tanhAct : ℚ → ℚ) (a : Autoencoder) (x : Batch) : Batch :=
  a.decoder.forward elu tanhAct (a.encoder.forward elu x)

/-- The output folder computed in `resnet_cifar.main`:
`folder = f'residual_cifar_{bottleneck}_bottle'`. -/
def residualCifarFolder (bottleneck : ℕ) : String :=
  "residual_cifar_" ++ Nat.repr bottleneck ++ "_bottle"

end Resnet

/-! ## Feedforward MNIST autoencoder, value semantics over the reals

The feedforward stack contains no abstract external layer beyond linear
algebra, so it is embedded fully: `nn.Linear` as a weight matrix and bias,
`F.relu` as `max x 0`, `torch.sigmoid` as the logistic function over ℝ.
-/

namespace Feedforward

/-- `torch.nn.Linear(n, m)` applied to one flat sample. -/
noncomputable def linear {m n : ℕ} (w : Fin m → Fin n → ℝ) (b : Fin m → ℝ)
    (x : Fin n → ℝ) : Fin m → ℝ :=
  fun i => (∑ j, w i j * x j) + b i

/-- `F.relu` over ℝ. -/
def reluR (t : ℝ) : ℝ := max t 0

/-- `F.relu` applied to a flat sample. -/
def reluV {n : ℕ} (x : Fin n → ℝ) : Fin n → ℝ := fun i => reluR (x i)

/-- `torch.sigmoid`. -/
noncomputable def sigmoid (t : ℝ) : ℝ := 1 / (1 + Real.exp (-t))

/-- Parameters of `feedforward.Encoder`: four linear layers 784 to 512 to 256
to 128 to 64. -/
structure Encoder where
  fc1w : Fin 512 → Fin 784 → ℝ
  fc1b : Fin 512 → ℝ
  fc2w : Fin 256 → Fin 512 → ℝ
  fc2b : Fin 256 → ℝ
  fc3w : Fin 128 → Fin 256 → ℝ
  fc3b : Fin 128 → ℝ
  fc4w : Fin 64 → Fin 128 → ℝ
  fc4b : Fin 64 → ℝ

/-- `Encoder.forward`: relu after each of the four linear layers. -/
noncomputable def Encoder.forward (e : Encoder) (x : Fin 784 → ℝ) : Fin 64 → ℝ :=
  let x := reluV (linear e.fc1w e.fc1b x)
  let x := reluV (linear e.fc2w e.fc2b x)
  let x := reluV (linear e.fc3w e.fc3b x)
  reluV (linear e.fc4w e.fc4b x)

/-- Parameters of `feedforward.Decoder`: four linear layers 64 to 128 to 256
to 512 to 784. -/
structure Decoder where
  fc1w : Fin 128 → Fin 64 → ℝ
  fc1b : Fin 128 → ℝ
  fc2w : Fin 256 → Fin 128 → ℝ
  fc2b : Fin 256 → ℝ
  fc3w : Fin 512 → Fin 256 → ℝ
  fc3b : Fin 512 → ℝ
  fc4w : Fin 784 → Fin 512 → ℝ
  fc4b : Fin 784 → ℝ

/-- `Decoder.forward`: relu after the first three linear layers, sigmoid after
the last. -/
noncomputable def Decoder.forward (d : Decoder) (x : Fin 64 → ℝ) : Fin 784 → ℝ :=
  let x := reluV (linear d.fc1w d.fc1b x)
  let x := reluV (linear d.fc2w d.fc2b x)
  let x := reluV (linear d.fc3w d.fc3b x)
  fun i => sigmoid (linear d.fc4w d.fc4b x i)

/-- Parameters of `feedforward.Autoencoder`. -/
structure Autoencoder where
  encoder : Encoder
  decoder : Decoder

/-- `Autoencoder.forward`: encoder then decoder. -/
noncomputable def Autoencoder.forward (a : Autoencoder) (x : Fin 784 → ℝ) : Fin 784 → ℝ :=
  a.decoder.forward (a.encoder.forward x)

/-- A batch of 100 synthetic all-zero 1x28x28 tensors, flattened to 784 as the
test loop does with `data.view(data.size(0), -1)`. -/
def zeroBatch : Fin 100 → Fin 784 → ℝ := fun _ _ => 0

/-- The batch output of a feedforward autoencoder on `zeroBatch`; its type
records the output shape (100, 784). -/
noncomputable def zeroBatchOutput (a : Autoencoder) : Fin 100 → Fin 784 → ℝ :=
  fun i => a.forward (zeroBatch i)

/-- A concrete all-zero parameter assignment, used as a concrete model
instance in witnesses. -/
noncomputable def zeroParams : Autoencoder :=
  { encoder :=
      { fc1w := fun _ _ => 0, fc1b := fun _ => 0, fc2w := fun _ _ => 0,
        fc2b := fun _ => 0, fc3w := fun _ _ => 0, fc3b := fun _ => 0,
        fc4w := fun _ _ => 0, fc4b := fun _ => 0 },
    decoder :=
      { fc1w := fun _ _ => 0, fc1b := fun _ => 0, fc2w := fun _ _ => 0,
        fc2b := fun _ => 0, fc3w := fun _ _ => 0, fc3b := fun _ => 0,
        fc4w := fun _ _ => 0, fc4b := fun _ => 0 } }

end Feedforward

/-! ## Losses and the train/test loop orchestration

`F.mse_loss` and `F.binary_cross_entropy` with their default mean reduction.
Data batches are flattened to value lists for the mean-squared-error scripts;
the feedforward script keeps its per-sample 784-vectors for the
binary-cross-entropy loss.
-/

/-- `F.mse_loss(output, target)`: mean of squared differences. -/
noncomputable def mseLoss (output target : List ℝ) : ℝ :=
  (List.zipWith (fun a b => (a - b) ^ 2) output target).sum / output.length

/-- One element of the binary cross entropy sum. -/
noncomputable def bceTerm (o t : ℝ) : ℝ :=
  -(t * Real.log o + (1 - t) * Real.log (1 - o))

/-- `F.binary_cross_entropy(output, target)` over a batch of 784-vectors:
mean over all elements. -/
noncomputable def bceLoss (output target : List (Fin 784 → ℝ)) : ℝ :=
  (List.zipWith (fun o t => ∑ j, bceTerm (o j) (t j)) output target).sum
    / (output.length * 784)

/-- The loss accumulator trace of one training epoch, one entry per batch.
Mirrors `train`: per batch, compute `loss` from the current model, let the
optimizer update the model (`optStep`, abstract: backward pass and
`optimizer.step()` are external), and add the loss to the running sum. -/
noncomputable def trainLossHistory {M D : Type} (lossOf : M → D → ℝ)
    (optStep : M → D → M) : M → ℝ → List D → List ℝ
  | _, _, [] => []
  | m, acc, d :: ds =>
    (acc + lossOf m d) :: trainLossHistory lossOf optStep (optStep m d) (acc + lossOf m d) ds

/-- The accumulator trace of a whole epoch: `train_loss = 0` at entry. -/
noncomputable def trainEpochLossHistory {M D : Type} (lossOf : M → D → ℝ)
    (optStep : M → D → M) (m : M) (batches : List D) : List ℝ :=
  trainLossHistory lossOf optStep m 0 batches

/-- A model as the test loop sees it: its parameters and its training-mode
flag (`model.eval()` clears the flag and touches nothing else). -/
structure Model (P : Type) where
  params : P
  training : Bool

/-- `model.eval()`. -/
def Model.evalMode {P : Type} (m : Model P) : Model P :=
  { m with training := false }

/-- The body of the `for i, (data, _) in enumerate(test_loader)` loop of
`test`: accumulate the mean-squared-error reconstruction loss and, on batch
index 0 only, write the two sample-image grids.  The model is threaded through
unchanged: the loop contains no optimizer and no parameter assignment. -/
noncomputable def testLoop {P : Type} (fwd : P → List ℝ → List ℝ)
    (images : List String) :
    Model P → ℕ → List (List ℝ) → ℝ → List String → Model P × ℝ × List String
  | m, _, [], loss, writes => (m, loss, writes)
  | m, i, d :: ds, loss, writes =>
    testLoop fwd images m (i + 1) ds (loss + mseLoss (fwd m.params d) d)
      (if i = 0 then writes ++ images else writes)

/-- `test(model, device, test_loader, folder, epoch)`: switch to eval mode,
then run the loop with loss 0 and no files written yet. -/
noncomputable def test {P : Type} (fwd : P → List ℝ → List ℝ) (images : List String)
    (m : Model P) (batches : List (List ℝ)) : Model P × ℝ × List String :=
  testLoop fwd images m.evalMode 0 batches 0 []

/-- The image grid files written by `resnet_cifar.test` (also by
`conditional_autoencoder.test`) at the first batch:
`f'{folder}/{epoch}.png'` and `f'{folder}/{epoch}baseline.png'`. -/
def epochBaselineImages (folder : String) (epoch : ℕ) : List String :=
  [folder ++ "/" ++ Nat.repr epoch ++ ".png",
   folder ++ "/" ++ Nat.repr epoch ++ "baseline.png"]

/-- The image grid files written by `feedforward.test` (also by
`convolutional_cifar.test`) at the first batch:
`f'{folder}/{epoch}.png'` and `f'{folder}/baseline{epoch}.png'`. -/
def baselineEpochImages (folder : String) (epoch : ℕ) : List String :=
  [folder ++ "/" ++ Nat.repr epoch ++ ".png",
   folder ++ "/baseline" ++ Nat.repr epoch ++ ".png"]

/-- The checkpoint file written at the end of every epoch of `main`:
`torch.save(model.state_dict(), f"{folder}/{epoch}.pt")`; every script
hardcodes `save_model = True`. -/
def checkpointFile (folder : String) (epoch : ℕ) : String :=
  folder ++ "/" ++ Nat.repr epoch ++ ".pt"

/-- All files one epoch of the `main` loop writes: the writes of the test
phase followed by the checkpoint. -/
noncomputable def epochFiles {P : Type} (fwd : P → List ℝ → List ℝ)
    (images : List String) (m : Model P) (batches : List (List ℝ))
    (folder : String) (epoch : ℕ) : List String :=
  (test fwd images m batches).2.2 ++ [checkpointFile folder epoch]

/-- Modelled from the words of claim C7, for the refinement comparison only:
the per-epoch file set the claim describes, `{N}.pt`, `{N}.png` and
`baseline{N}.png`, for every script. -/
def claimedEpochFiles (folder : String) (epoch : ℕ) : List String :=
  [folder ++ "/" ++ Nat.repr epoch ++ ".pt",
   folder ++ "/" ++ Nat.repr epoch ++ ".png",
   folder ++ "/baseline" ++ Nat.repr epoch ++ ".png"]

/-! ### feedforward.py shape pipelines -/

/-- Shape action of `torch.nn.Linear(nin, nout)` on a flat feature dimension. -/
def linearShape (nin nout : ℕ) (n : ℕ) : Option ℕ :=
  if n = nin then some nout else none

/-- Shape pipeline of `feedforward.Encoder`: 784 to 512 to 256 to 128 to 64. -/
def ffEncoderShape : ℕ → Option ℕ :=
  seqShape [linearShape 784 512, linearShape 512 256, linearShape 256 128, linearShape 128 64]

/-- Shape pipeline of `feedforward.Decoder`: 64 to 128 to 256 to 512 to 784. -/
def ffDecoderShape : ℕ → Option ℕ :=
  seqShape [linearShape 64 128, linearShape 128 256, linearShape 256 512, linearShape 512 784]

/-! ## Helper lemmas -/

/-- A 3x3 stride-1 padding-1 convolution with matching channel count preserves
any shape with positive spatial extent. -/
theorem conv311_shape (f h w : ℕ) (hh : 1 ≤ h) (hw : 1 ≤ w) :
    conv2dShape f f 3 1 1 ⟨f, h, w⟩ = some ⟨f, h, w⟩ := by
  unfold conv2dShape convOutDim
  rw [if_pos]
  · simp only [Option.some.injEq, Shape3.mk.injEq, Nat.div_one, true_and]
    exact ⟨by omega, by omega⟩
  · show f = f ∧ 3 ≤ h + 2 * 1 ∧ 3 ≤ w + 2 * 1
    exact ⟨rfl, by omega, by omega⟩

/-- The residual branch of the resnet basic block preserves matching shapes. -/
theorem basicBlockBranchShape_id (f h w : ℕ) (hh : 1 ≤ h) (hw : 1 ≤ w) :
    basicBlockBranchShape f ⟨f, h, w⟩ = some ⟨f, h, w⟩ := by
  simp [basicBlockBranchShape, seqShape, conv311_shape f h w hh hw, bn2dShape]

/-- The resnet basic block preserves matching shapes. -/
theorem basicBlockShape_id (f h w : ℕ) (hh : 1 ≤ h) (hw : 1 ≤ w) :
    basicBlockShape f ⟨f, h, w⟩ = some ⟨f, h, w⟩ := by
  simp [basicBlockShape, basicBlockBranchShape_id f h w hh hw, addShape]

/-- The resnet bigger block preserves matching shapes. -/
theorem biggerBlockShape_id (f h w : ℕ) (hh : 1 ≤ h) (hw : 1 ≤ w) :
    biggerBlockShape f ⟨f, h, w⟩ = some ⟨f, h, w⟩ := by
  simp [biggerBlockShape, biggerBlockBranchShape, seqShape,
    basicBlockShape_id f h w hh hw, bn2dShape, addShape]

/-- The test loop threads the model through unchanged. -/
theorem testLoop_model {P : Type} (fwd : P → List ℝ → List ℝ) (images : List String) :
    ∀ (ds : List (List ℝ)) (m : Model P) (i : ℕ) (loss : ℝ) (writes : List String),
      (testLoop fwd images m i ds loss writes).1 = m := by
  intro ds
  induction ds with
  | nil => intro m i loss writes; rfl
  | cons d ds ih => intro m i loss writes; exact ih m (i + 1) _ _

/-- From batch index 1 on, the test loop writes no further file. -/
theorem testLoop_writes_stable {P : Type} (fwd : P → List ℝ → List ℝ)
    (images : List String) :
    ∀ (ds : List (List ℝ)) (m : Model P) (i : ℕ), 1 ≤ i →
      ∀ (loss : ℝ) (writes : List String),
        (testLoop fwd images m i ds loss writes).2.2 = writes := by
  intro ds
  induction ds with
  | nil => intro m i hi loss writes; rfl
  | cons d ds ih =>
    intro m i hi loss writes
    have hne : ¬ i = 0 := by omega
    simp only [testLoop, if_neg hne]
    exact ih m (i + 1) (by omega) _ _

/-- On a nonempty evaluation set, the test phase writes exactly the two image
grids of its first batch. -/
theorem test_writes_cons {P : Type} (fwd : P → List ℝ → List ℝ) (images : List String)
    (m : Model P) (b : List ℝ) (bs : List (List ℝ)) :
    (test fwd images m (b :: bs)).2.2 = images := by
  simp only [test, testLoop, if_pos rfl]
  rw [testLoop_writes_stable fwd images bs _ 1 (by omega)]
  simp

/-- The sum of squared differences over two zipped lists is nonnegative. -/
theorem sum_sq_zipWith_nonneg :
    ∀ (output target : List ℝ),
      0 ≤ (List.zipWith (fun a b => (a - b) ^ 2) output target).sum := by
  intro output
  induction output with
  | nil => intro target; simp
  | cons a o ih =>
    intro target
    cases target with
    | nil => simp
    | cons b t =>
      simp only [List.zipWith_cons_cons, List.sum_cons]
      have := ih t
      positivity

/-- `F.mse_loss` is nonnegative. -/
theorem mseLoss_nonneg (output target : List ℝ) : 0 ≤ mseLoss output target :=
  div_nonneg (sum_sq_zipWith_nonneg output target) (by positivity)

/-- The logistic function is positive. -/
theorem sigmoid_pos (t : ℝ) : 0 < Feedforward.sigmoid t := by
  have := Real.exp_pos (-t)
  rw [Feedforward.sigmoid]
  positivity

/-- The logistic function is below one. -/
theorem sigmoid_lt_one (t : ℝ) : Feedforward.sigmoid t < 1 := by
  have h := Real.exp_pos (-t)
  rw [Feedforward.sigmoid, div_lt_one (by linarith)]
  linarith

/-- Every component of a feedforward decoder output is strictly inside (0, 1). -/
theorem ffForward_mem (a : Feedforward.Autoencoder) (x : Fin 784 → ℝ) (j : Fin 784) :
    0 < a.forward x j ∧ a.forward x j < 1 := by
  simp only [Feedforward.Autoencoder.forward, Feedforward.Decoder.forward]
  exact ⟨sigmoid_pos _, sigmoid_lt_one _⟩

/-- One binary cross entropy term is nonnegative when the output lies in
[0, 1] and the target lies in [0, 1]. -/
theorem bceTerm_nonneg (o t : ℝ) (ho0 : 0 ≤ o) (ho1 : o ≤ 1) (ht0 : 0 ≤ t)
    (ht1 : t ≤ 1) : 0 ≤ bceTerm o t := by
  have h1 : Real.log o ≤ 0 := Real.log_nonpos ho0 ho1
  have h2 : Real.log (1 - o) ≤ 0 := Real.log_nonpos (by linarith) (by linarith)
  have h3 : t * Real.log o ≤ 0 := mul_nonpos_of_nonneg_of_nonpos ht0 h1
  have h4 : (1 - t) * Real.log (1 - o) ≤ 0 :=
    mul_nonpos_of_nonneg_of_nonpos (by linarith) h2
  rw [bceTerm]
  linarith

/-- The binary cross entropy of feedforward reconstructions against targets in
[0, 1] is nonnegative. -/
theorem bceLoss_ff_nonneg (a : Feedforward.Autoencoder) (d : List (Fin 784 → ℝ))
    (hd : ∀ s ∈ d, ∀ j, 0 ≤ s j ∧ s j ≤ 1) :
    0 ≤ bceLoss (d.map a.forward) d := by
  apply div_nonneg _ (by positivity)
  rw [List.zipWith_map_left, List.zipWith_same]
  apply List.sum_nonneg
  intro q hq
  obtain ⟨s, hs, rfl⟩ := List.mem_map.mp hq
  apply Finset.sum_nonneg
  intro j _
  exact bceTerm_nonneg _ _ (le_of_lt (ffForward_mem a s j).1)
    (le_of_lt (ffForward_mem a s j).2) (hd s hs j).1 (hd s hs j).2

/-- The loss accumulator trace is a nondecreasing chain from its entry value
whenever every per-batch loss is nonnegative. -/
theorem trainLossHistory_chain {M D : Type} (lossOf : M → D → ℝ)
    (optStep : M → D → M) :
    ∀ (ds : List D) (m : M) (acc : ℝ), (∀ (mm : M) (d : D), d ∈ ds → 0 ≤ lossOf mm d) →
      List.Chain (· ≤ ·) acc (trainLossHistory lossOf optStep m acc ds) := by
  intro ds
  induction ds with
  | nil => intro m acc _; exact List.Chain.nil
  | cons d ds ih =>
    intro m acc h
    refine List.Chain.cons (le_add_of_nonneg_right (h m d (List.mem_cons_self d ds))) ?_
    exact ih (optStep m d) _ fun mm e he => h mm e (List.mem_cons_of_mem d he)

/-! ## Claim theorems -/

/-- C1 counterexample: at a concrete conditional autoencoder, a concrete
one-image input batch and the concrete label batch [1], the output of
`Autoencoder.conditional_forward(x, y)` as the source computes it differs from
the output obtained when the label is threaded through every normalization
layer of the encoder as well — so not every `ConditionalBatchNorm2d` of the
composed model receives `y`. -/
theorem C1_counterexample :
    (Conditional.Autoencoder.conditional_forward Conditional.idQ Conditional.idQ
        Conditional.autoencoderSep Conditional.onesBatch [1]).headI 0 0 0
      ≠ (Conditional.Autoencoder.conditional_forward_fullthread Conditional.idQ
          Conditional.idQ Conditional.autoencoderSep Conditional.onesBatch [1]).headI 0 0 0 := by
  norm_num [Conditional.Autoencoder.conditional_forward,
    Conditional.Autoencoder.conditional_forward_fullthread,
    Conditional.ResidualEncoder.forward, Conditional.ResidualEncoder.conditional_forward,
    Conditional.ResidualDecoder.conditional_forward, Conditional.BasicBlock.conditional_forward,
    Conditional.ELU_BatchNorm2d.conditional_forward, Conditional.ConditionalBatchNorm2d.forward,
    Conditional.autoencoderSep, Conditional.encoderSep, Conditional.decoderSep,
    Conditional.blockSep, Conditional.ebSep, Conditional.cbnSep, Conditional.embedSep,
    Conditional.onesBatch, Conditional.idQ, batchMap, imgMap, batchAdd, imgAdd, reluQ]

/-- C1 (amended): `Autoencoder.conditional_forward(x, y)` threads `y` through
every normalization layer of the decoder, but it invokes the encoder through
its unconditional `forward`, so every `ConditionalBatchNorm2d` of the encoder
receives the default all-zero label batch instead of `y`. -/
theorem C1_label_threading (elu tanhAct : ℚ → ℚ) (a : Conditional.Autoencoder)
    (x : Batch) (y : Labels) :
    Conditional.Autoencoder.conditional_forward elu tanhAct a x y
      = a.decoder.conditional_forward elu tanhAct
          (a.encoder.conditional_forward elu x (List.replicate x.length 0)) y := rfl

/-- C2: for every module of conditional_autoencoder.py that has a
`conditional_forward` and an unconditional `forward` (BasicBlock,
ELU_BatchNorm2d, ResidualEncoder, ResidualDecoder, Autoencoder — the modules
wrapping ConditionalBatchNorm2d), `forward(x)` equals
`conditional_forward(x, y)` with `y` the all-zero label batch of the batch
length of `x`, for every input. -/
theorem C2_zero_label_default :
    (∀ (p : Conditional.BasicBlock) (x : Batch),
        p.forward x = p.conditional_forward x (List.replicate x.length 0)) ∧
    (∀ (elu : ℚ → ℚ) (p : Conditional.ELU_BatchNorm2d) (x : Batch),
        p.forward elu x = p.conditional_forward elu x (List.replicate x.length 0)) ∧
    (∀ (elu : ℚ → ℚ) (p : Conditional.ResidualEncoder) (x : Batch),
        p.forward elu x = p.conditional_forward elu x (List.replicate x.length 0)) ∧
    (∀ (elu tanhAct : ℚ → ℚ) (p : Conditional.ResidualDecoder) (x : Batch),
        p.forward elu tanhAct x
          = p.conditional_forward elu tanhAct x (List.replicate x.length 0)) ∧
    (∀ (elu tanhAct : ℚ → ℚ) (a : Conditional.Autoencoder) (x : Batch),
        a.forward elu tanhAct x
          = a.conditional_forward elu tanhAct x (List.replicate x.length 0)) :=
  ⟨fun _ _ => rfl, fun _ _ _ => rfl, fun _ _ _ => rfl, fun _ _ _ _ => rfl,
   fun _ _ _ _ => rfl⟩

/-- C3: for each of the four architectures, the decoder shape pipeline applied
to the encoder shape pipeline output on the declared input shape returns
exactly the declared input shape: 784 for the feedforward variant, (3, 32, 32)
for the convolutional, residual and conditional CIFAR variants. -/
theorem C3_shape_roundtrip :
    (ffEncoderShape 784).bind ffDecoderShape = some 784 ∧
    (convCifarEncoderShape ⟨3, 32, 32⟩).bind convCifarDecoderShape = some ⟨3, 32, 32⟩ ∧
    (resnetEncoderShape ⟨3, 32, 32⟩).bind resnetDecoderShape = some ⟨3, 32, 32⟩ ∧
    ((condEncoderShape 64 128 256 512 1024 ⟨3, 32, 32⟩).bind
        (condDecoderShape 64 128 256 512 1024)) = some ⟨3, 32, 32⟩ := by
  decide

/-- C4: both resnet_cifar residual blocks return the input plus the inner
transform of the input, and both preserve every shape with the declared
channel count and positive spatial extent. -/
theorem C4_additive_skip (f h w : ℕ) (hh : 1 ≤ h) (hw : 1 ≤ w) :
    (∀ (p : Resnet.BasicBlock) (x : Batch), p.forward x = batchAdd x (p.residual x)) ∧
    (∀ (p : Resnet.BiggerBlock) (x : Batch), p.forward x = batchAdd x (p.block x)) ∧
    basicBlockShape f ⟨f, h, w⟩ = some ⟨f, h, w⟩ ∧
    biggerBlockShape f ⟨f, h, w⟩ = some ⟨f, h, w⟩ :=
  ⟨fun _ _ => rfl, fun _ _ => rfl, basicBlockShape_id f h w hh hw,
   biggerBlockShape_id f h w hh hw⟩

/-- C4 witness at the channel count 64 and the spatial extent 32 x 32. -/
theorem C4_additive_skip_witness :
    (1 ≤ 32 ∧ 1 ≤ 32) ∧
    ((∀ (p : Resnet.BasicBlock) (x : Batch), p.forward x = batchAdd x (p.residual x)) ∧
     (∀ (p : Resnet.BiggerBlock) (x : Batch), p.forward x = batchAdd x (p.block x)) ∧
     basicBlockShape 64 ⟨64, 32, 32⟩ = some ⟨64, 32, 32⟩ ∧
     biggerBlockShape 64 ⟨64, 32, 32⟩ = some ⟨64, 32, 32⟩) :=
  ⟨⟨by decide, by decide⟩, C4_additive_skip 64 32 32 (by decide) (by decide)⟩

/-- C5: the batch output of any feedforward autoencoder on the batch of 100
all-zero flattened 1x28x28 inputs — whose type `Fin 100 → Fin 784 → ℝ` records
the output shape (100, 784) — has every element inside [0, 1], since the final
decoder activation is the sigmoid. -/
theorem C5_zero_batch_output_range (a : Feedforward.Autoencoder) (i : Fin 100)
    (j : Fin 784) :
    0 ≤ Feedforward.zeroBatchOutput a i j ∧ Feedforward.zeroBatchOutput a i j ≤ 1 := by
  have h := ffForward_mem a (Feedforward.zeroBatch i) j
  exact ⟨le_of_lt h.1, le_of_lt h.2⟩

/-- C6: after construction, every per-class scale entry of the conditional
normalization embedding (column below `features`) carries a sampler value and
hence lies in [0, 1] whenever the uniform [0, 1] sampler respects its range,
and every per-class shift entry (column at or above `features`) is exactly
zero.  The affine-free unconditional step appears as the `bn` field
(`BatchNorm2d(features, affine=False)`), which `forward` applies before this
per-class affine. -/
theorem C6_cbn_initialization (features classes : ℕ) (bn : Batch → Batch)
    (u : ℕ → ℕ → ℚ) (h : ∀ cls j, 0 ≤ u cls j ∧ u cls j ≤ 1) :
    (∀ cls j, j < features →
        0 ≤ (Conditional.ConditionalBatchNorm2d.init features classes bn u).embed cls j ∧
          (Conditional.ConditionalBatchNorm2d.init features classes bn u).embed cls j ≤ 1) ∧
    (∀ cls j, features ≤ j →
        (Conditional.ConditionalBatchNorm2d.init features classes bn u).embed cls j = 0) := by
  constructor
  · intro cls j hj
    simpa [Conditional.ConditionalBatchNorm2d.init, hj] using h cls j
  · intro cls j hj
    simp [Conditional.ConditionalBatchNorm2d.init, Nat.not_lt.mpr hj]

/-- C6 witness at feature count 2, class count 10, the constant sampler 1/2. -/
theorem C6_cbn_initialization_witness :
    (∀ cls j, 0 ≤ (fun (_ _ : ℕ) => (1 : ℚ) / 2) cls j ∧
        (fun (_ _ : ℕ) => (1 : ℚ) / 2) cls j ≤ 1) ∧
    ((∀ cls j, j < 2 →
        0 ≤ (Conditional.ConditionalBatchNorm2d.init 2 10 (fun x => x)
              (fun _ _ => (1 : ℚ) / 2)).embed cls j ∧
          (Conditional.ConditionalBatchNorm2d.init 2 10 (fun x => x)
              (fun _ _ => (1 : ℚ) / 2)).embed cls j ≤ 1) ∧
     (∀ cls j, 2 ≤ j →
        (Conditional.ConditionalBatchNorm2d.init 2 10 (fun x => x)
            (fun _ _ => (1 : ℚ) / 2)).embed cls j = 0)) :=
  ⟨fun _ _ => by norm_num,
   C6_cbn_initialization 2 10 (fun x => x) (fun _ _ => (1 : ℚ) / 2)
     (fun _ _ => by norm_num)⟩

/-- C7 counterexample: in resnet_cifar (and conditional_autoencoder), the
originals grid of epoch 1 is written as `{folder}/1baseline.png`, so the file
`{folder}/baseline1.png` named by the claim is among the claimed files but not
among the files the script writes in that epoch. -/
theorem C7_counterexample :
    ("f" ++ "/baseline" ++ Nat.repr 1 ++ ".png") ∈ claimedEpochFiles "f" 1 ∧
    ("f" ++ "/baseline" ++ Nat.repr 1 ++ ".png")
      ∉ epochFiles (fun (_ : Unit) _ => []) (epochBaselineImages "f" 1)
          ⟨(), true⟩ [[0]] "f" 1 := by
  constructor
  · decide
  · rw [epochFiles, test_writes_cons]
    decide

/-- C7 (amended): in every epoch with a nonempty evaluation set, each script
writes exactly its reconstruction grid `{N}.png`, its originals grid, and the
checkpoint `{N}.pt`; the originals grid is `baseline{N}.png` for
feedforward.py and convolutional_cifar.py but `{N}baseline.png` for
resnet_cifar.py and conditional_autoencoder.py. -/
theorem C7_epoch_files {P : Type} (fwd : P → List ℝ → List ℝ) (m : Model P)
    (folder : String) (epoch : ℕ) (b : List ℝ) (bs : List (List ℝ)) :
    epochFiles fwd (epochBaselineImages folder epoch) m (b :: bs) folder epoch
      = [folder ++ "/" ++ Nat.repr epoch ++ ".png",
         folder ++ "/" ++ Nat.repr epoch ++ "baseline.png",
         folder ++ "/" ++ Nat.repr epoch ++ ".pt"] ∧
    epochFiles fwd (baselineEpochImages folder epoch) m (b :: bs) folder epoch
      = [folder ++ "/" ++ Nat.repr epoch ++ ".png",
         folder ++ "/baseline" ++ Nat.repr epoch ++ ".png",
         folder ++ "/" ++ Nat.repr epoch ++ ".pt"] := by
  constructor <;> rw [epochFiles, test_writes_cons] <;> rfl

/-- C8: the evaluation phase returns the model parameters unchanged (no
optimizer is invoked; the backward machinery is disabled externally by
`torch.no_grad`), and the side-by-side image grids are written exactly once,
while processing batch index 0, never for a later batch: the write list of the
whole phase is the first-batch image pair whenever at least one batch exists. -/
theorem C8_eval_phase {P : Type} (fwd : P → List ℝ → List ℝ) (images : List String)
    (m : Model P) (batches : List (List ℝ)) :
    (test fwd images m batches).1.params = m.params ∧
    (test fwd images m batches).2.2 = if batches.isEmpty then [] else images := by
  constructor
  · rw [test, testLoop_model]; rfl
  · cases batches with
    | nil => rfl
    | cons b bs => rw [test_writes_cons]; rfl

/-- C9: within one training epoch the loss accumulator trace starts at zero,
each entry is the previous entry plus the loss of that batch, and the trace
is nondecreasing because both reconstruction losses are nonnegative —
mean-squared-error unconditionally, binary cross entropy for the feedforward
model whose sigmoid outputs lie in (0, 1), against targets in [0, 1]. -/
theorem C9_loss_accumulator {M : Type} (fwd : M → List ℝ → List ℝ)
    (optStep : M → List ℝ → M) (m : M) (batches : List (List ℝ))
    (ffOpt : Feedforward.Autoencoder → List (Fin 784 → ℝ) → Feedforward.Autoencoder)
    (ffm : Feedforward.Autoencoder) (ffBatches : List (List (Fin 784 → ℝ)))
    (hdata : ∀ d ∈ ffBatches, ∀ s ∈ d, ∀ j, 0 ≤ s j ∧ s j ≤ 1) :
    (∀ output target, 0 ≤ mseLoss output target) ∧
    (∀ (lossOf : M → List ℝ → ℝ) (mm : M) (acc : ℝ) (d : List ℝ) (ds : List (List ℝ)),
        trainLossHistory lossOf optStep mm acc (d :: ds)
          = (acc + lossOf mm d)
              :: trainLossHistory lossOf optStep (optStep mm d) (acc + lossOf mm d) ds) ∧
    List.Chain (· ≤ ·) 0
      (trainEpochLossHistory (fun mm d => mseLoss (fwd mm d) d) optStep m batches) ∧
    List.Chain (· ≤ ·) 0
      (trainEpochLossHistory (fun a d => bceLoss (d.map a.forward) d) ffOpt ffm ffBatches) := by
  refine ⟨mseLoss_nonneg, fun _ _ _ _ _ => rfl, ?_, ?_⟩
  · exact trainLossHistory_chain _ optStep batches m 0
      fun mm d _ => mseLoss_nonneg (fwd mm d) d
  · exact trainLossHistory_chain _ ffOpt ffBatches ffm 0
      fun a d hd => bceLoss_ff_nonneg a d (hdata d hd)

/-- C9 witness: a unit model with one flat batch and a zero-weight feedforward
autoencoder with one all-zero batch, whose data bounds hold trivially. -/
theorem C9_loss_accumulator_witness :
    (∀ d ∈ [[fun _ => (0 : ℝ)]], ∀ s ∈ d, ∀ (j : Fin 784), 0 ≤ s j ∧ s j ≤ 1) ∧
    ((∀ output target, 0 ≤ mseLoss output target) ∧
     (∀ (lossOf : Unit → List ℝ → ℝ) (mm : Unit) (acc : ℝ) (d : List ℝ)
         (ds : List (List ℝ)),
        trainLossHistory lossOf (fun _ _ => ()) mm acc (d :: ds)
          = (acc + lossOf mm d)
              :: trainLossHistory lossOf (fun _ _ => ()) ((fun _ _ => ()) mm d)
                  (acc + lossOf mm d) ds) ∧
     List.Chain (· ≤ ·) 0
       (trainEpochLossHistory (fun mm d => mseLoss ((fun (_ : Unit) d => d) mm d) d)
         (fun _ _ => ()) () [[0]]) ∧
     List.Chain (· ≤ ·) 0
       (trainEpochLossHistory (fun a d => bceLoss (d.map a.forward) d)
         (fun a _ => a) Feedforward.zeroParams [[fun _ => 0]])) :=
  ⟨by
    intro d hd s hs j
    simp only [List.mem_singleton] at hd
    subst hd
    simp only [List.mem_singleton] at hs
    subst hs
    norm_num,
   C9_loss_accumulator (fun (_ : Unit) d => d) (fun _ _ => ()) () [[0]]
     (fun a _ => a) Feedforward.zeroParams [[fun _ => 0]]
     (by
      intro d hd s hs j
      simp only [List.mem_singleton] at hd
      subst hd
      simp only [List.mem_singleton] at hs
      subst hs
      norm_num)⟩

/-- C10: the bottleneck argument of resnet_cifar.Autoencoder.__init__ has no
effect on the constructed model — for any two bottleneck values and the same
freshly drawn layer weights, the built autoencoders are identical — while the
output folder computed by main does depend on the bottleneck value. -/
theorem C10_bottleneck_ignored :
    (∀ (b1 b2 : ℕ) (enc : Resnet.ResidualEncoder) (dec : Resnet.ResidualDecoder),
        Resnet.Autoencoder.build b1 enc dec = Resnet.Autoencoder.build b2 enc dec) ∧
    Resnet.residualCifarFolder 1 ≠ Resnet.residualCifarFolder 2 :=
  ⟨fun _ _ _ _ => rfl, by decide⟩

end Autoencoders
